import Mathlib

/- Verification development for the NL language front-end parser
   (src/parsing/mod.rs of the nested-language repository).

   The parser is a hand-written nom-combinator recursive-descent parser.
   We give a shallow embedding: input is a list of characters, every
   production is a total Lean function from input to a result that is
   either success (remaining input plus value), a recoverable nom error
   (NomErr::Error), a fatal nom error (NomErr::Failure — never built by
   this parser, but modelled so that the alt/opt semantics are exact), or
   a Rust panic (the source contains reachable panic sites, e.g. the
   unimplemented range-match branch).  Recursion through the expression
   grammar is modelled with an explicit fuel parameter; the Rust functions
   terminate because each cycle through the grammar consumes input, so any
   sufficiently large fuel computes the same answer as the source.  Machine
   integers are modelled as Nat/Int with explicit range checks mirroring
   i64::from_str_radix / u64::from_str_radix; f32/f64 literal values are
   modelled as exact rationals (IEEE rounding is not modelled; every float
   value appearing in a theorem below is exactly representable, so the
   rational agrees with the value the Rust code computes). -/

namespace NL

/-- Parser input: a borrowed string slice, modelled as a list of characters. -/
abbrev Str := List Char

/-- Shorthand to turn a Lean string literal into parser input. -/
def str (s : String) : Str := s.data

/-- Model of nom VerboseError: a stack of (remaining-input slice, context) pairs.
The second component stands for VerboseErrorKind (Context / Char / Nom); the
claims below never inspect it, only whether an error occurred and of which
severity. -/
abbrev VError := List (Str × String)

/-- Result of running one production, mirroring IResult plus Rust panics:
ok carries the remaining input and the produced value; error is nom
Err::Error (recoverable, caught by alt/opt); failure is nom Err::Failure
(fatal, propagated through alt/opt — the source never constructs one, since
verbose_error builds Err::Error); panicked models a Rust panic
(panic / unimplemented), which no combinator catches. -/
inductive PResult (α : Type) where
  | ok (rest : Str) (val : α)
  | error (e : VError)
  | failure (e : VError)
  | panicked

deriving instance Inhabited for PResult

/-- Success test on a production result. -/
def PResult.isOk {α : Type} : PResult α → Bool
  | .ok _ _ => true
  | _ => false

/-- Recoverable-error test: true exactly for nom Err::Error. -/
def PResult.is_recoverable_error {α : Type} : PResult α → Bool
  | .error _ => true
  | _ => false

/-- Panic test on a production result. -/
def PResult.is_panicked {α : Type} : PResult α → Bool
  | .panicked => true
  | _ => false

/-- A production: consumes a prefix of the input. -/
abbrev Parser (α : Type) := Str → PResult α

instance : Monad Parser where
  pure a := fun input => .ok input a
  bind p f := fun input =>
    match p input with
    | .ok rest v => f v rest
    | .error e => .error e
    | .failure e => .failure e
    | .panicked => .panicked

/-- Source helper verbose_error: builds the one-entry VerboseError used for
hand-made errors (always severity Err::Error). -/
def verbose_error (input : Str) (message : String) : VError :=
  [(input, message)]

/-- Model of a reachable Rust panic site. -/
def rust_panic {α : Type} : Parser α := fun _ => .panicked

/-- Fuel-exhaustion outcome for the fueled expression grammar.  Unreachable
for sufficiently large fuel: every recursive cycle of the source grammar
consumes at least one input character. -/
def fuel_exhausted {α : Type} : Parser α := fun input =>
  .error (verbose_error input "out of fuel")

/-- nom tag: match an exact string prefix. -/
def tag (t : Str) : Parser Str := fun input =>
  if t.isPrefixOf input then .ok (input.drop t.length) t
  else .error [(input, "tag")]

/-- nom char: match one exact character. -/
def char (c : Char) : Parser Char := fun input =>
  match input with
  | [] => .error [(input, "char")]
  | x :: rest => if x = c then .ok rest c else .error [(input, "char")]

/-- nom one_of: match one character from a set. -/
def one_of (cs : Str) : Parser Char := fun input =>
  match input with
  | [] => .error [(input, "one_of")]
  | x :: rest => if cs.contains x then .ok rest x else .error [(input, "one_of")]

/-- nom take_while: longest (possibly empty) prefix of characters satisfying p; never fails. -/
def take_while (p : Char → Bool) : Parser Str := fun input =>
  .ok (input.dropWhile p) (input.takeWhile p)

/-- nom take_while1: like take_while but errors on the empty match. -/
def take_while1 (p : Char → Bool) : Parser Str := fun input =>
  match input.takeWhile p with
  | [] => .error [(input, "take_while1")]
  | taken => .ok (input.dropWhile p) taken

/-- Index of the first occurrence of t in the input, if any. -/
def find_sub (t : Str) : Str → Option Nat
  | [] => if t.isEmpty then some 0 else none
  | c :: rest =>
    if t.isPrefixOf (c :: rest) then some 0
    else (find_sub t rest).map (· + 1)

/-- nom take_until: consume up to (not including) the first occurrence of t;
errors when t does not occur. -/
def take_until (t : Str) : Parser Str := fun input =>
  match find_sub t input with
  | some n => .ok (input.drop n) (input.take n)
  | none => .error [(input, "take_until")]

/-- nom opt: recoverable errors become None without consuming; fatal
failures and panics still propagate. -/
def opt {α : Type} (p : Parser α) : Parser (Option α) := fun input =>
  match p input with
  | .ok rest v => .ok rest (some v)
  | .error _ => .ok input none
  | .failure e => .failure e
  | .panicked => .panicked

/-- nom alt: ordered choice; a recoverable error moves to the next
alternative (the last alternative's error is returned, matching
VerboseError's or-combination); failures and panics propagate. -/
def alt {α : Type} (ps : List (Parser α)) : Parser α := fun input =>
  match ps with
  | [] => .error [(input, "alt")]
  | p :: rest =>
    match p input with
    | .ok r v => .ok r v
    | .failure e => .failure e
    | .panicked => .panicked
    | .error e => if rest.isEmpty then .error e else alt rest input

/-- nom value: run p, discard its output, return v. -/
def value {α β : Type} (v : β) (p : Parser α) : Parser β := do
  let _ ← p
  pure v

/-- nom preceded. -/
def preceded {α β : Type} (p : Parser α) (q : Parser β) : Parser β := do
  let _ ← p
  q

/-- nom terminated. -/
def terminated {α β : Type} (p : Parser α) (q : Parser β) : Parser α := do
  let v ← p
  let _ ← q
  pure v

/-- nom delimited. -/
def delimited {α β γ : Type} (p : Parser α) (q : Parser β) (r : Parser γ) : Parser β := do
  let _ ← p
  let v ← q
  let _ ← r
  pure v

/-- nom recognize: run p and return the exact slice it consumed. -/
def recognize {α : Type} (p : Parser α) : Parser Str := fun input =>
  match p input with
  | .ok rest _ => .ok rest (input.take (input.length - rest.length))
  | .error e => .error e
  | .failure e => .failure e
  | .panicked => .panicked

/-- Worker for many0: fuel bounds the number of iterations; nom's
infinite-loop protection (error when the inner parser succeeds without
consuming) guarantees each iteration consumes, so fuel = length + 1 is
never exhausted. -/
def many0_go {α : Type} (p : Parser α) : Nat → Str → List α → PResult (List α)
  | 0, input, _ => .error (verbose_error input "many0 fuel")
  | Nat.succ n, input, acc =>
    match p input with
    | .error _ => .ok input acc.reverse
    | .failure e => .failure e
    | .panicked => .panicked
    | .ok rest v =>
      if rest.length = input.length then .error [(input, "many0")]
      else many0_go p n rest (v :: acc)

/-- nom many0: zero or more repetitions, stopping at the first recoverable error. -/
def many0 {α : Type} (p : Parser α) : Parser (List α) := fun input =>
  many0_go p (input.length + 1) input []

/-- nom many1: one or more repetitions; the first item's recoverable error
is returned (with a many1 frame appended, as VerboseError::append does). -/
def many1 {α : Type} (p : Parser α) : Parser (List α) := fun input =>
  match p input with
  | .error e => .error ((input, "many1") :: e)
  | .failure e => .failure e
  | .panicked => .panicked
  | .ok rest v => many0_go p (rest.length + 1) rest [v]

/-- nom multispace0: Rust whitespace set is space, tab, carriage return, newline. -/
def is_multispace (c : Char) : Bool :=
  c == ' ' || c == '\t' || c == '\r' || c == '\n'

/-- nom multispace0: never fails. -/
def multispace0 : Parser Str := take_while is_multispace

/-- ASCII alphabetic test, as nom's alpha parsers use. -/
def is_ascii_alpha (c : Char) : Bool :=
  ('a' ≤ c && c ≤ 'z') || ('A' ≤ c && c ≤ 'Z')

/-- ASCII digit test. -/
def is_ascii_digit (c : Char) : Bool :=
  '0' ≤ c && c ≤ '9'

/-- ASCII alphanumeric test. -/
def is_ascii_alphanumeric (c : Char) : Bool :=
  is_ascii_alpha c || is_ascii_digit c

/-- nom alpha1. -/
def alpha1 : Parser Str := take_while1 is_ascii_alpha

/-- nom digit1. -/
def digit1 : Parser Str := take_while1 is_ascii_digit

/-- nom alphanumeric0: never fails. -/
def alphanumeric0 : Parser Str := take_while is_ascii_alphanumeric

/-- nom alphanumeric1. -/
def alphanumeric1 : Parser Str := take_while1 is_ascii_alphanumeric

/-- Source read_comment: a line comment terminated by a newline, or a block
comment terminated by its close marker. -/
def read_comment : Parser Str :=
  alt [
    preceded (tag (str ("//"))) (terminated (take_until (str ("\n"))) (tag (str ("\n")))),
    preceded (tag (str ("/*"))) (terminated (take_until (str ("*/"))) (tag (str ("*/"))))]

/-- Source read_comments: zero or more comments each followed by optional
whitespace, returning the consumed slice (the source counts the comments
with many0_count inside recognize; only the consumed slice is observable). -/
def read_comments : Parser Str :=
  recognize (many0 (terminated read_comment multispace0))

/-- Source blank: the trivia skipper — whitespace, then comment runs. -/
def blank : Parser Unit :=
  value () (preceded multispace0 read_comments)

/-- Source is_name: characters of a (possibly scoped) plain name. -/
def is_name (c : Char) : Bool :=
  match c with
  | '_' => true
  | '.' => true
  | _ => ('a' ≤ c && c ≤ 'z') || ('A' ≤ c && c ≤ 'Z')

/-- Source read_struct_or_trait_name. -/
def read_struct_or_trait_name : Parser Str :=
  delimited blank alphanumeric1 blank

/-- Source is_method_char. -/
def is_method_char (c : Char) : Bool :=
  match c with
  | '_' => true
  | _ => is_ascii_alphanumeric c

/-- Source read_method_name. -/
def read_method_name : Parser Str :=
  delimited blank (take_while1 is_method_char) blank

/-- Source read_variable_name. -/
def read_variable_name : Parser Str := do
  let _ ← blank
  take_while1 is_name

/-- The parenthesis-delimited capture the source repeats inline in
read_tuple, read_function_call, read_tuple_of_variable_names,
read_argument_deceleration_list and read_enum_branch:
delimited(char left-paren, take_while(not right-paren), char right-paren).
It grabs everything up to the first closing parenthesis of the raw input. -/
def paren_enclosed : Parser Str :=
  delimited (char '(') (take_while (fun c => c != ')')) (char ')')

/- ===================== Data model (AST) ===================== -/

/-- Source NLType: primitive scalars, strings, tuple of types, nominal
struct/trait references in three ownership forms, self references, and the
none/unit marker.  Name payloads are borrowed slices, modelled as Str. -/
inductive NLType where
  | None
  | Boolean
  | I8 | I16 | I32 | I64
  | U8 | U16 | U32 | U64
  | F32 | F64
  | OwnedString
  | BorrowedString
  | Tuple (types : List NLType)
  | OwnedStruct (name : Str)
  | ReferencedStruct (name : Str)
  | MutableReferencedStruct (name : Str)
  | OwnedTrait (name : Str)
  | ReferencedTrait (name : Str)
  | MutableReferencedTrait (name : Str)
  | Enum (name : Str)
  | SelfReference
  | MutableSelfReference

/-- Source NLType::is_signed. -/
def NLType.is_signed : NLType → Bool
  | .I8 => true
  | .I16 => true
  | .I32 => true
  | .I64 => true
  | _ => false

/-- True exactly on the six owned/referenced/mutably-referenced
struct-or-trait nominal forms produced by identify_struct_or_trait_type. -/
def NLType.is_nominal_struct_or_trait : NLType → Bool
  | .OwnedStruct _ => true
  | .ReferencedStruct _ => true
  | .MutableReferencedStruct _ => true
  | .OwnedTrait _ => true
  | .ReferencedTrait _ => true
  | .MutableReferencedTrait _ => true
  | _ => false

/-- Source OpConstant.  The Unsigned/Signed payloads are u64/i64 values
produced by from_str_radix (range-checked below); Float32/Float64 payloads
are the mathematical values of the parsed decimal text as exact rationals
(IEEE rounding is not modelled; the concrete values in the theorems below
are exactly representable in the corresponding float width). -/
inductive OpConstant where
  | Boolean (b : Bool)
  | Unsigned (value : Nat) (nl_type : NLType)
  | Signed (value : Int) (nl_type : NLType)
  | Float32 (value : ℚ)
  | Float64 (value : ℚ)
  | String (s : Str)

/-- Source OpVariable. -/
structure OpVariable where
  name : Str

/-- Source MatchEnumBranch. -/
structure MatchEnumBranch where
  nl_enum : Str
  variant : Str
  «variables» : List Str

/-- Source MatchBranch (Range carries a pair of i128 values in the source;
no successful parse ever constructs it — read_range_branch is
unimplemented — so the payload type only matters for the data model). -/
inductive MatchBranch where
  | Enum (e : MatchEnumBranch)
  | Constant (c : OpConstant)
  | Range (lower higher : Int)
  | AllOther

mutual

/-- Source NLOperation together with the record types it owns.  The struct
wrappers of the source (NLBlock, OpAssignment, IfStatement, WhileLoop,
ForLoop, Match, FunctionCall) are inlined as constructor fields, in source
field order; NLBlock's single field is the operation list. -/
inductive NLOperation where
  | Block (operations : List NLOperation)
  | Constant (c : OpConstant)
  | Assign (is_new : Bool) (to_assign : List OpVariable)
      (type_assignments : List NLType) (assignment : NLOperation)
  | VariableAccess (v : OpVariable)
  | Tuple (elements : List NLOperation)
  | Operator (op : OpOperator)
  | If (condition : NLOperation) (true_block : List NLOperation)
      (false_block : List NLOperation)
  | Loop (block : List NLOperation)
  | WhileLoop (condition : NLOperation) (block : List NLOperation)
  | ForLoop («variable» : OpVariable) (iterator : NLOperation)
      (block : List NLOperation)
  | Break
  | Match (input : NLOperation) (branches : List (MatchBranch × NLOperation))
  | FunctionCall (path : Str) (arguments : List Str)

/-- Source OpOperator: every binary kind carries exactly its two boxed
operand sub-trees, the three unary kinds one. -/
inductive OpOperator where
  | CompareEqual (a b : NLOperation)
  | CompareNotEqual (a b : NLOperation)
  | CompareGreater (a b : NLOperation)
  | CompareLess (a b : NLOperation)
  | CompareGreaterEqual (a b : NLOperation)
  | CompareLessEqual (a b : NLOperation)
  | LogicalNegate (a : NLOperation)
  | LogicalAnd (a b : NLOperation)
  | LogicalOr (a b : NLOperation)
  | LogicalXor (a b : NLOperation)
  | BitAnd (a b : NLOperation)
  | BitOr (a b : NLOperation)
  | BitXor (a b : NLOperation)
  | ArithmeticNegate (a : NLOperation)
  | BitNegate (a : NLOperation)
  | BitLeftShift (a b : NLOperation)
  | BitRightShift (a b : NLOperation)
  | PropError (a : NLOperation)
  | ArithmeticMod (a b : NLOperation)
  | ArithmeticAdd (a b : NLOperation)
  | ArithmeticSub (a b : NLOperation)
  | ArithmeticMul (a b : NLOperation)
  | ArithmeticDiv (a b : NLOperation)
  | Range (a b : NLOperation)

end

/-- Source NLBlock: an ordered sequence of operations (single field inlined). -/
abbrev NLBlock := List NLOperation

/-- Source NLArgument. -/
structure NLArgument where
  name : Str
  nl_type : NLType

/-- Source NLStructVariable. -/
structure NLStructVariable where
  name : Str
  my_type : NLType

/-- Source NLFunction (also used for methods): absence of a block is a
forward declaration. -/
structure NLFunction where
  name : Str
  arguments : List NLArgument
  return_type : NLType
  block : Option NLBlock

/-- Source NLEncapsulationBlock: the three-state getter/setter body. -/
inductive NLEncapsulationBlock where
  | Some (block : NLBlock)
  | None
  | Default

/-- Source NLGetter (its name field is an owned String in Rust; the
distinction owned/borrowed is immaterial to the embedding). -/
structure NLGetter where
  name : Str
  args : List NLArgument
  nl_type : NLType
  block : NLEncapsulationBlock

/-- Source NLSetter. -/
structure NLSetter where
  name : Str
  args : List NLArgument
  block : NLEncapsulationBlock

/-- Source NLImplementor. -/
inductive NLImplementor where
  | Method (f : NLFunction)
  | Getter (g : NLGetter)
  | Setter (s : NLSetter)

/-- Source NLImplementation. -/
structure NLImplementation where
  name : Str
  implementors : List NLImplementor

/-- Source NLStruct. -/
structure NLStruct where
  name : Str
  «variables» : List NLStructVariable
  implementations : List NLImplementation

/-- Source NLTrait. -/
structure NLTrait where
  name : Str
  implementors : List NLImplementor

/-- Source EnumVariant. -/
structure EnumVariant where
  name : Str
  arguments : List NLArgument

/-- Source NLEnum. -/
structure NLEnum where
  name : Str
  variants : List EnumVariant

/-- Source RootDeceleration (sic). -/
inductive RootDeceleration where
  | Struct (s : NLStruct)
  | Trait (t : NLTrait)
  | Function (f : NLFunction)
  | Enum (e : NLEnum)

/-- Source NLFile: the aggregate root.  Its name is the owned file-name
string. -/
structure NLFile where
  name : String
  structs : List NLStruct
  traits : List NLTrait
  functions : List NLFunction
  enums : List NLEnum

/-- Source ParseError: the rendered diagnostic. -/
structure ParseError where
  message : String

/-- Result of parse_string, plus the panic outcome a caller of the Rust
function can observe. -/
inductive ParseOutcome where
  | Ok (file : NLFile)
  | Err (error : ParseError)
  | Panicked

/-- Success test on a parse_string outcome. -/
def ParseOutcome.isOk : ParseOutcome → Bool
  | .Ok _ => true
  | _ => false

/-- Diagnostic test on a parse_string outcome. -/
def ParseOutcome.isErr : ParseOutcome → Bool
  | .Err _ => true
  | _ => false

/-- Panic test on a parse_string outcome. -/
def ParseOutcome.isPanicked : ParseOutcome → Bool
  | .Panicked => true
  | _ => false

/- ===================== Region parsing helpers ===================== -/

/-- Propagate a recoverable error, as the question-mark operator does. -/
def throw_err {α : Type} (e : VError) : Parser α := fun _ => .error e

/-- Lift the result of parsing an already-captured region: the source keeps
the outer remaining input and only uses the region parse's value (its
region-local remaining input is dropped or fed to the next region step). -/
def lift_result {α : Type} (r : PResult α) : Parser α := fun input =>
  match r with
  | .ok _ v => .ok input v
  | .error e => .error e
  | .failure e => .failure e
  | .panicked => .panicked

/-- The comma-list idiom the source repeats on captured regions:
many0(terminated(item, separator)) followed by opt(last), pushing the last
element when present. -/
def region_items {α : Type} (main last : Parser α) : Parser (List α) := fun region =>
  match many0 main region with
  | .ok r1 items =>
    match opt last r1 with
    | .ok r2 lastv => .ok r2 (match lastv with | some v => items ++ [v] | none => items)
    | .error e => .error e
    | .failure e => .failure e
    | .panicked => .panicked
  | .error e => .error e
  | .failure e => .failure e
  | .panicked => .panicked

/- ===================== Literal grammar ===================== -/

/-- Source ParsedInteger: raw digit text (underscores included, exactly as
recognize captures it) plus the radix. -/
structure ParsedInteger where
  text : Str
  radix : Nat

/-- Source parse_decimal: optionally signed decimal digits with ignorable
underscore separators (the sign characters are part of the one_of set). -/
def parse_decimal : Parser ParsedInteger := do
  let text ← recognize (many1 (terminated (one_of (str ("-0123456789"))) (many0 (char '_'))))
  pure { text := text, radix := 10 }

/-- Source parse_hexadecimal. -/
def parse_hexadecimal : Parser ParsedInteger := do
  let text ← preceded (alt [tag (str ("0x")), tag (str ("0X"))])
    (recognize (many1 (terminated (one_of (str ("0123456789abcdefABCDEF"))) (many0 (char '_')))))
  pure { text := text, radix := 16 }

/-- Source parse_octal. -/
def parse_octal : Parser ParsedInteger := do
  let text ← preceded (alt [tag (str ("0o")), tag (str ("0O"))])
    (recognize (many1 (terminated (one_of (str ("01234567"))) (many0 (char '_')))))
  pure { text := text, radix := 8 }

/-- Source parse_binary. -/
def parse_binary : Parser ParsedInteger := do
  let text ← preceded (alt [tag (str ("0b")), tag (str ("0B"))])
    (recognize (many1 (terminated (one_of (str ("01"))) (many0 (char '_')))))
  pure { text := text, radix := 2 }

/-- Source parse_integer: radix priority hex, then binary, then octal,
then decimal. -/
def parse_integer : Parser ParsedInteger :=
  alt [parse_hexadecimal, parse_binary, parse_octal, parse_decimal]

/-- The digit run used inside the source's parse_float (an inner helper
shadowing the name parse_decimal there): unsigned decimal digits with
underscore separators. -/
def parse_float_decimal : Parser Str :=
  recognize (many1 (terminated (one_of (str ("0123456789"))) (many0 (char '_'))))

/-- Source parse_float: recognizes one of the three surface float forms
(leading-dot, exponent, trailing-dot), each with optional leading minus. -/
def parse_float : Parser Str :=
  alt [
    recognize (do
      let _ ← opt (char '-')
      let _ ← char '.'
      let _ ← parse_float_decimal
      let _ ← opt (do
        let _ ← one_of (str ("eE"))
        let _ ← opt (one_of (str ("+-")))
        parse_float_decimal)
      pure ()),
    recognize (do
      let _ ← opt (char '-')
      let _ ← parse_float_decimal
      let _ ← opt (preceded (char '.') parse_float_decimal)
      let _ ← one_of (str ("eE"))
      let _ ← opt (one_of (str ("+-")))
      let _ ← parse_float_decimal
      pure ()),
    recognize (do
      let _ ← opt (char '-')
      let _ ← parse_float_decimal
      let _ ← char '.'
      let _ ← opt parse_float_decimal
      pure ())]

/- ===================== Rust numeric conversions ===================== -/

/-- Value of one ASCII digit in any radix up to 36, as Rust's char::to_digit. -/
def digit_value (c : Char) : Option Nat :=
  if is_ascii_digit c then some (c.toNat - Char.toNat '0')
  else if 'a' ≤ c && c ≤ 'z' then some (c.toNat - Char.toNat 'a' + 10)
  else if 'A' ≤ c && c ≤ 'Z' then some (c.toNat - Char.toNat 'A' + 10)
  else none

/-- Value of a non-empty digit run in the given radix; none when empty or
when any character (such as an underscore) is not a digit below the radix. -/
def digits_value (radix : Nat) (ds : Str) : Option Nat :=
  if ds.isEmpty then none
  else ds.foldl
    (fun acc c =>
      acc.bind fun a =>
        (digit_value c).bind fun d =>
          if d < radix then some (a * radix + d) else none)
    (some 0)

/-- Rust u64::from_str_radix: optional leading plus, digits, value must fit
in 64 unsigned bits; a minus sign is rejected. -/
def from_str_radix_u64 (s : Str) (radix : Nat) : Option Nat :=
  let ds := match s with
    | '+' :: rest => rest
    | other => other
  (digits_value radix ds).bind fun v =>
    if v < 2 ^ 64 then some v else none

/-- Rust i64::from_str_radix: optional sign, digits, value must fit in a
signed 64-bit integer. -/
def from_str_radix_i64 (s : Str) (radix : Nat) : Option Int :=
  match s with
  | '-' :: rest =>
    (digits_value radix rest).bind fun v =>
      if (v : Int) ≤ 2 ^ 63 then some (-(v : Int)) else none
  | '+' :: rest =>
    (digits_value radix rest).bind fun v =>
      if (v : Int) ≤ 2 ^ 63 - 1 then some (v : Int) else none
  | other =>
    (digits_value radix other).bind fun v =>
      if (v : Int) ≤ 2 ^ 63 - 1 then some (v : Int) else none

/-- Decimal value of a digit run (no validation; callers check digits). -/
def decimal_digits_nat (ds : Str) : Nat :=
  ds.foldl (fun acc c => acc * 10 + (c.toNat - Char.toNat '0')) 0

/-- Exact rational value of a decoded decimal float literal: sign, integer
digits, fraction digits, decimal exponent. -/
def float_value (neg : Bool) (ipart fpart : Str) (ex : Int) : ℚ :=
  let mantissa : ℚ :=
    (decimal_digits_nat ipart : ℚ) + (decimal_digits_nat fpart : ℚ) / (10 : ℚ) ^ fpart.length
  let scaled : ℚ :=
    if 0 ≤ ex then mantissa * (10 : ℚ) ^ ex.toNat
    else mantissa / (10 : ℚ) ^ (-ex).toNat
  if neg then -scaled else scaled

/-- Rust str::parse for f32/f64 on a finite decimal form, modelled exactly:
optional sign, then digits with optional fraction or a leading-dot
fraction, then an optional exponent; underscores and any other stray
character make it fail, as in Rust.  The result is the exact rational
value of the literal; rounding to the float width is not modelled (every
value a theorem below mentions is exactly representable). -/
def rust_parse_float (s : Str) : Option ℚ :=
  let signed : Bool × Str := match s with
    | '-' :: rest => (true, rest)
    | '+' :: rest => (false, rest)
    | other => (false, other)
  let neg := signed.1
  let body := signed.2
  let ipart := body.takeWhile is_ascii_digit
  let r1 := body.dropWhile is_ascii_digit
  let fracced : Option (Str × Str) := match r1 with
    | '.' :: r2 => some (r2.takeWhile is_ascii_digit, r2.dropWhile is_ascii_digit)
    | other => some ([], other)
  fracced.bind fun fr =>
    let fpart := fr.1
    let r3 := fr.2
    if ipart.isEmpty && fpart.isEmpty then none
    else
      let expo : Option Int := match r3 with
        | [] => some 0
        | e :: r4 =>
          if e == 'e' || e == 'E' then
            let se : Bool × Str := match r4 with
              | '-' :: r5 => (true, r5)
              | '+' :: r5 => (false, r5)
              | other => (false, other)
            let edigits := se.2.takeWhile is_ascii_digit
            if edigits.isEmpty || !(se.2.dropWhile is_ascii_digit).isEmpty then none
            else some (if se.1 then -(decimal_digits_nat edigits : Int) else (decimal_digits_nat edigits : Int))
          else none
      expo.bind fun ex => some (float_value neg ipart fpart ex)

/- ===================== Constant productions ===================== -/

/-- Source read_boolean_constant. -/
def read_boolean_constant : Parser OpConstant := fun input =>
  match alpha1 input with
  | .ok rest v =>
    if v = str ("true") then .ok rest (.Boolean true)
    else if v = str ("false") then .ok rest (.Boolean false)
    else .error (verbose_error rest "boolean must be true or false")
  | .error e => .error e
  | .failure e => .failure e
  | .panicked => .panicked

/-- Source read_variable_type_primitive_no_whitespace: exact match against
the closed primitive keyword set. -/
def read_variable_type_primitive_no_whitespace : Parser NLType := fun input =>
  match alphanumeric0 input with
  | .ok rest type_name =>
    if type_name = str ("i8") then .ok rest .I8
    else if type_name = str ("i16") then .ok rest .I16
    else if type_name = str ("i32") then .ok rest .I32
    else if type_name = str ("i64") then .ok rest .I64
    else if type_name = str ("u8") then .ok rest .U8
    else if type_name = str ("u16") then .ok rest .U16
    else if type_name = str ("u32") then .ok rest .U32
    else if type_name = str ("u64") then .ok rest .U64
    else if type_name = str ("f32") then .ok rest .F32
    else if type_name = str ("f64") then .ok rest .F64
    else if type_name = str ("bool") then .ok rest .Boolean
    else .error (verbose_error rest "Constants must be primative types: i8-64, u8-64, f32-64, or bool.")
  | .error e => .error e
  | .failure e => .failure e
  | .panicked => .panicked

/-- Shared tail of the integer path of read_numerical_constant: convert the
digit text at the resolved type's signedness, range-checked. -/
def integer_finish (input : Str) (nl_type : NLType) (integer : ParsedInteger) : PResult OpConstant :=
  if nl_type.is_signed then
    match from_str_radix_i64 integer.text integer.radix with
    | some n => .ok input (.Signed n nl_type)
    | none => .error (verbose_error input "Failed to parse integer.")
  else
    match from_str_radix_u64 integer.text integer.radix with
    | some n => .ok input (.Unsigned n nl_type)
    | none => .error (verbose_error input "Failed to parse integer.")

/-- Source read_numerical_constant: attempt the float grammar first; on
success resolve an optional float-width suffix (a non-float suffix is an
error, absence defaults to 32-bit float); otherwise parse an integer by
radix priority, resolve an optional integer suffix (a boolean suffix is an
error, absence defaults to I32) and convert by signedness. -/
def read_numerical_constant : Parser OpConstant := fun input =>
  match parse_float input with
  | .ok input1 number =>
    match read_variable_type_primitive_no_whitespace input1 with
    | .ok input2 nl_type =>
      match nl_type with
      | .F32 =>
        match rust_parse_float number with
        | some q => .ok input2 (.Float32 q)
        | none => .error (verbose_error number "parse constant integer")
      | .F64 =>
        match rust_parse_float number with
        | some q => .ok input2 (.Float64 q)
        | none => .error (verbose_error number "parse constant integer")
      | _ => .error (verbose_error input2 "Cannot represent a fractional number as anything other than a floating point type.")
    | .failure e => .failure e
    | .panicked => .panicked
    | .error _ =>
      match rust_parse_float number with
      | some q => .ok input1 (.Float32 q)
      | none => .error (verbose_error number "parse constant integer")
  | .panicked => .panicked
  | _ =>
    match parse_integer input with
    | .ok input1 integer =>
      match read_variable_type_primitive_no_whitespace input1 with
      | .ok input2 nl_type =>
        match nl_type with
        | .Boolean => .error (verbose_error input2 "Cannot represent a number as a boolean.")
        | _ => integer_finish input2 nl_type integer
      | .failure e => .failure e
      | .panicked => .panicked
      | .error _ => integer_finish input1 .I32 integer
    | .error e => .error e
    | .failure e => .failure e
    | .panicked => .panicked

/-- Source read_string_constant: a double-quoted run excluding the quote
character, returned unescaped. -/
def read_string_constant : Parser OpConstant := do
  let _ ← blank
  let string ← delimited (char '"') (take_while (fun c => c != '"')) (char '"')
  pure (.String string)

/-- Source read_constant_raw. -/
def read_constant_raw : Parser OpConstant := do
  let _ ← blank
  alt [read_boolean_constant, read_numerical_constant, read_string_constant]

/-- Source read_constant. -/
def read_constant : Parser NLOperation := do
  let constant ← read_constant_raw
  pure (NLOperation.Constant constant)

/- ===================== Type grammar ===================== -/

/-- Shared tail of identify_struct_or_trait_type, after the reference and
mutability markers are known: optional dyn marker (absence means struct),
then the name, classified into the six nominal forms. -/
def identify_tail (is_reference is_mutable : Bool) : Parser NLType := fun input =>
  match opt (tag (str ("dyn"))) input with
  | .ok i1 dyn_opt =>
    match read_struct_or_trait_name i1 with
    | .ok i2 name =>
      if dyn_opt.isNone then
        if is_reference then
          if is_mutable then .ok i2 (.MutableReferencedStruct name)
          else .ok i2 (.ReferencedStruct name)
        else .ok i2 (.OwnedStruct name)
      else
        if is_reference then
          if is_mutable then .ok i2 (.MutableReferencedTrait name)
          else .ok i2 (.ReferencedTrait name)
        else .ok i2 (.OwnedTrait name)
    | .error e => .error e
    | .failure e => .failure e
    | .panicked => .panicked
  | .error e => .error e
  | .failure e => .failure e
  | .panicked => .panicked

/-- Source identify_struct_or_trait_type: optional reference marker, then
(only under a reference) an optional mutability marker, then the shared
dyn-and-name tail. -/
def identify_struct_or_trait_type : Parser NLType := fun input =>
  match opt (char '&') input with
  | .ok i1 ref_opt =>
    match blank i1 with
    | .ok i2 _ =>
      if ref_opt.isSome then
        match opt (tag (str ("mut"))) i2 with
        | .ok i3 mut_opt =>
          match blank i3 with
          | .ok i4 _ => identify_tail true mut_opt.isSome i4
          | .error e => .error e
          | .failure e => .failure e
          | .panicked => .panicked
        | .error e => .error e
        | .failure e => .failure e
        | .panicked => .panicked
      else identify_tail false false i2
    | .error e => .error e
    | .failure e => .failure e
    | .panicked => .panicked
  | .error e => .error e
  | .failure e => .failure e
  | .panicked => .panicked

/-- Inner helper of the source's read_variable_type_no_whitespace: a
borrowed-string keyword, or else a struct/trait nominal type. -/
def read_advanced_types : Parser NLType := fun input =>
  match blank input with
  | .ok i1 _ =>
    match opt (preceded blank (tag (str ("str")))) i1 with
    | .ok i2 str_opt =>
      if str_opt.isSome then .ok i2 .BorrowedString
      else identify_struct_or_trait_type i2
    | .error e => .error e
    | .failure e => .failure e
    | .panicked => .panicked
  | .error e => .error e
  | .failure e => .failure e
  | .panicked => .panicked

/-- Source read_variable_type_no_whitespace: primitive keyword first, then
the advanced (string/nominal) fallback. -/
def read_variable_type_no_whitespace : Parser NLType :=
  alt [read_variable_type_primitive_no_whitespace, read_advanced_types]

/-- Source read_variable_type. -/
def read_variable_type : Parser NLType := do
  let _ ← blank
  read_variable_type_no_whitespace

/- ===================== Expression grammar, non-recursive parts ===================== -/

/-- Source read_single_variable. -/
def read_single_variable : Parser (List Str) := do
  let name ← read_variable_name
  pure [name]

/-- Source read_tuple_of_variable_names: the region up to the first closing
parenthesis, split into comma-separated names, optional trailing comma. -/
def read_tuple_of_variable_names : Parser (List Str) := do
  let tuple_str ← paren_enclosed
  lift_result (region_items
    (terminated read_variable_name (do
      let _ ← blank
      let _ ← char ','
      blank))
    (terminated read_variable_name blank)
    tuple_str)

/-- Source is_operator_symbol: the fixed operator-symbol alphabet. -/
def is_operator_symbol (c : Char) : Bool :=
  match c with
  | '=' => true
  | '!' => true
  | '~' => true
  | '|' => true
  | '&' => true
  | '^' => true
  | '%' => true
  | '+' => true
  | '-' => true
  | '*' => true
  | '/' => true
  | '<' => true
  | '>' => true
  | '.' => true
  | _ => false

/-- Source take_operator_symbol: a greedy non-empty run from the operator
alphabet. -/
def take_operator_symbol : Parser Str :=
  take_while1 is_operator_symbol

/-- Source read_break_keyword.  Note that, unlike every sibling production
of read_operation, it does not skip leading trivia before matching the
keyword. -/
def read_break_keyword : Parser NLOperation := fun input =>
  match opt (tag (str ("break"))) input with
  | .ok rest (some _) => .ok rest .Break
  | .ok rest none => .error (verbose_error rest "This is not a break operation.")
  | .error e => .error e
  | .failure e => .failure e
  | .panicked => .panicked

/-- Source read_variable_access_raw. -/
def read_variable_access_raw : Parser OpVariable := do
  let _ ← blank
  let name ← read_variable_name
  pure ⟨name⟩

/-- Source read_variable_access. -/
def read_variable_access : Parser NLOperation := do
  let v ← read_variable_access_raw
  pure (NLOperation.VariableAccess v)

/-- Source read_function_call: a (possibly dotted) path, then the region up
to the first closing parenthesis split into comma-separated bare names. -/
def read_function_call : Parser NLOperation := do
  let _ ← blank
  let path ← read_variable_name
  let _ ← blank
  let arg_input ← paren_enclosed
  let arguments ← lift_result (region_items
    (terminated read_variable_name (char ','))
    read_variable_name
    arg_input)
  pure (NLOperation.FunctionCall path arguments)

/- ===================== Expression grammar, recursive knot ===================== -/

mutual

/-- Source read_code_block_raw. -/
def read_code_block_raw : Nat → Parser NLBlock
  | 0 => fuel_exhausted
  | Nat.succ n => do
    let _ ← blank
    let _ ← char '{'
    let operations ← many0 (read_operation n)
    let _ ← blank
    let _ ← char '}'
    pure operations

/-- Source read_code_block. -/
def read_code_block : Nat → Parser NLOperation
  | 0 => fuel_exhausted
  | Nat.succ n => do
    let block ← read_code_block_raw n
    pure (NLOperation.Block block)

/-- Source read_tuple: the region up to the first closing parenthesis,
split into comma-separated operations, optional trailing comma. -/
def read_tuple : Nat → Parser NLOperation
  | 0 => fuel_exhausted
  | Nat.succ n => do
    let _ ← blank
    let tuple_str ← paren_enclosed
    let tuple ← lift_result (region_items
      (terminated (read_operation n) (do
        let _ ← blank
        let _ ← char ','
        blank))
      (terminated (read_operation n) blank)
      tuple_str)
    pure (NLOperation.Tuple tuple)

/-- Source read_assignment: optional let, a name or name tuple, optional
type ascription, equals sign, then a full recursive right-hand side. -/
def read_assignment : Nat → Parser NLOperation
  | 0 => fuel_exhausted
  | Nat.succ n => do
    let _ ← blank
    let is_new ← opt (tag (str ("let")))
    let _ ← blank
    let names ← alt [read_tuple_of_variable_names, read_single_variable]
    let _ ← blank
    let has_type_assignment ← opt (char ':')
    let type_assignments ←
      if has_type_assignment.isNone then pure ([] : List NLType)
      else do
        let assignment ← read_variable_type
        pure (match assignment with
          | NLType.Tuple tuple => tuple
          | other => [other])
    let _ ← blank
    let _ ← char '='
    let _ ← blank
    let _ ← blank
    let assignment ← read_operation n
    pure (NLOperation.Assign is_new.isSome (names.map (fun name => OpVariable.mk name))
      type_assignments assignment)

/-- Source read_urinary_operator (sic): one operator-symbol run, then a full
recursive operand, dispatched to the three unary kinds. -/
def read_urinary_operator : Nat → Parser NLOperation
  | 0 => fuel_exhausted
  | Nat.succ n => do
    let _ ← blank
    let operator ← take_operator_symbol
    let _ ← blank
    let operand ← read_operation n
    if operator = str ("!") then pure (NLOperation.Operator (.LogicalNegate operand))
    else if operator = str ("~") then pure (NLOperation.Operator (.BitNegate operand))
    else if operator = str ("-") then pure (NLOperation.Operator (.ArithmeticNegate operand))
    else fun input => .error (verbose_error input "unknown operator")

/-- Source read_binary_operator: a restricted sub-grammar operand, one
operator-symbol run, another restricted operand, dispatched on the exact
captured text to the binary kinds. -/
def read_binary_operator : Nat → Parser NLOperation
  | 0 => fuel_exhausted
  | Nat.succ n => do
    let _ ← blank
    let operand_a ← read_sub_operation n
    let _ ← blank
    let operator ← take_operator_symbol
    let _ ← blank
    let operand_b ← read_sub_operation n
    if operator = str ("==") then pure (NLOperation.Operator (.CompareEqual operand_a operand_b))
    else if operator = str ("!=") then pure (NLOperation.Operator (.CompareNotEqual operand_a operand_b))
    else if operator = str (">=") then pure (NLOperation.Operator (.CompareGreaterEqual operand_a operand_b))
    else if operator = str ("<=") then pure (NLOperation.Operator (.CompareLessEqual operand_a operand_b))
    else if operator = str (">") then pure (NLOperation.Operator (.CompareGreater operand_a operand_b))
    else if operator = str ("<") then pure (NLOperation.Operator (.CompareLess operand_a operand_b))
    else if operator = str ("&&") then pure (NLOperation.Operator (.LogicalAnd operand_a operand_b))
    else if operator = str ("||") then pure (NLOperation.Operator (.LogicalOr operand_a operand_b))
    else if operator = str ("^^") then pure (NLOperation.Operator (.LogicalXor operand_a operand_b))
    else if operator = str ("&") then pure (NLOperation.Operator (.BitAnd operand_a operand_b))
    else if operator = str ("|") then pure (NLOperation.Operator (.BitOr operand_a operand_b))
    else if operator = str ("^") then pure (NLOperation.Operator (.BitXor operand_a operand_b))
    else if operator = str ("<<") then pure (NLOperation.Operator (.BitLeftShift operand_a operand_b))
    else if operator = str (">>") then pure (NLOperation.Operator (.BitRightShift operand_a operand_b))
    else if operator = str ("+") then pure (NLOperation.Operator (.ArithmeticAdd operand_a operand_b))
    else if operator = str ("-") then pure (NLOperation.Operator (.ArithmeticSub operand_a operand_b))
    else if operator = str ("%") then pure (NLOperation.Operator (.ArithmeticMod operand_a operand_b))
    else if operator = str ("/") then pure (NLOperation.Operator (.ArithmeticDiv operand_a operand_b))
    else if operator = str ("*") then pure (NLOperation.Operator (.ArithmeticMul operand_a operand_b))
    else if operator = str ("..") then pure (NLOperation.Operator (.Range operand_a operand_b))
    else fun input => .error (verbose_error input "unknown operator")

/-- Source read_if_statement: condition, true block, optionally else and a
false block (empty when absent); the source panics if the block production
returns a non-block (it cannot, but the panic is modelled). -/
def read_if_statement : Nat → Parser NLOperation
  | 0 => fuel_exhausted
  | Nat.succ n => do
    let _ ← blank
    let _ ← tag (str ("if"))
    let _ ← blank
    let condition ← read_operation n
    let _ ← blank
    let true_block ← read_code_block n
    let _ ← blank
    let else_tag ← opt (tag (str ("else")))
    let false_block ←
      if else_tag.isSome then do
        let block ← read_code_block n
        match block with
        | NLOperation.Block block => pure block
        | _ => rust_panic
      else pure ([] : NLBlock)
    let tb ← match true_block with
      | NLOperation.Block block => pure block
      | _ => rust_panic
    pure (NLOperation.If condition tb false_block)

/-- Source read_basic_loop. -/
def read_basic_loop : Nat → Parser NLOperation
  | 0 => fuel_exhausted
  | Nat.succ n => do
    let _ ← blank
    let _ ← tag (str ("loop"))
    let _ ← blank
    let block ← read_code_block_raw n
    pure (NLOperation.Loop block)

/-- Source read_while_loop. -/
def read_while_loop : Nat → Parser NLOperation
  | 0 => fuel_exhausted
  | Nat.succ n => do
    let _ ← blank
    let _ ← tag (str ("while"))
    let _ ← blank
    let condition ← read_operation n
    let _ ← blank
    let block ← read_code_block_raw n
    pure (NLOperation.WhileLoop condition block)

/-- Source read_for_loop. -/
def read_for_loop : Nat → Parser NLOperation
  | 0 => fuel_exhausted
  | Nat.succ n => do
    let _ ← blank
    let _ ← tag (str ("for"))
    let _ ← blank
    let v ← read_variable_access_raw
    let _ ← blank
    let _ ← tag (str ("in"))
    let _ ← blank
    let iterator ← read_operation n
    let _ ← blank
    let block ← read_code_block_raw n
    pure (NLOperation.ForLoop v iterator block)

/-- Source read_match's inner read_branch_body. -/
def read_branch_body : Nat → Parser NLOperation
  | 0 => fuel_exhausted
  | Nat.succ n => do
    let _ ← blank
    let _ ← tag (str ("=>"))
    let _ ← blank
    read_operation n

/-- Source read_match's inner read_enum_branch: Enum::Variant with an
optional parenthesized bound-name list, then the branch body. -/
def read_enum_branch : Nat → Parser (MatchBranch × NLOperation)
  | 0 => fuel_exhausted
  | Nat.succ n => do
    let _ ← blank
    let nl_enum ← read_variable_name
    let _ ← blank
    let _ ← tag (str ("::"))
    let _ ← blank
    let variant ← read_variable_name
    let _ ← blank
    let var_input ← opt paren_enclosed
    let vars ← match var_input with
      | some var_input => lift_result (region_items
          (terminated read_variable_name (char ','))
          read_variable_name
          var_input)
      | none => pure ([] : List Str)
    let operation ← read_branch_body n
    pure (MatchBranch.Enum ⟨nl_enum, variant, vars⟩, operation)

/-- Source read_match's inner read_constant_branch. -/
def read_constant_branch : Nat → Parser (MatchBranch × NLOperation)
  | 0 => fuel_exhausted
  | Nat.succ n => do
    let _ ← blank
    let constant ← read_constant_raw
    let _ ← blank
    let operation ← read_branch_body n
    pure (MatchBranch.Constant constant, operation)

/-- Source read_match's inner read_range_branch: parses both decimal
bounds and the branch body, then hits unimplemented — the construction of
the Range branch is commented out in the source, so a fully parsed range
branch panics. -/
def read_range_branch : Nat → Parser (MatchBranch × NLOperation)
  | 0 => fuel_exhausted
  | Nat.succ n => do
    let _ ← blank
    let lower_digits ← digit1
    let _lower ← lift_result (parse_integer lower_digits)
    let _ ← blank
    let _ ← tag (str (".."))
    let _ ← blank
    let higher_digits ← digit1
    let _higher ← lift_result (parse_integer higher_digits)
    let _ ← blank
    let _operation ← read_branch_body n
    rust_panic

/-- Source read_match's inner read_branch: range, then constant, then enum. -/
def read_branch : Nat → Parser (MatchBranch × NLOperation)
  | 0 => fuel_exhausted
  | Nat.succ n =>
    alt [read_range_branch n, read_constant_branch n, read_enum_branch n]

/-- Source read_match: match keyword, scrutinee operation, braced
comma-separated branch list with optional trailing comma. -/
def read_match : Nat → Parser NLOperation
  | 0 => fuel_exhausted
  | Nat.succ n => do
    let _ ← blank
    let _ ← tag (str ("match"))
    let _ ← blank
    let input_operation ← read_operation n
    let _ ← blank
    let _ ← char '{'
    let _ ← blank
    let branches ← many0 (terminated (read_branch n) (char ','))
    let _ ← blank
    let last_branch ← opt (read_branch n)
    let branches := match last_branch with
      | some b => branches ++ [b]
      | none => branches
    let _ ← blank
    let _ ← char '}'
    pure (NLOperation.Match input_operation branches)

/-- Source read_sub_operation: the restricted operand sub-grammar — block,
tuple, function call, assignment, constant, unary operator, variable
access; no control flow and no binary operator. -/
def read_sub_operation : Nat → Parser NLOperation
  | 0 => fuel_exhausted
  | Nat.succ n =>
    alt [
      read_code_block n,
      read_tuple n,
      read_function_call,
      read_assignment n,
      read_constant,
      read_urinary_operator n,
      read_variable_access]

/-- Source read_operation: the full ordered choice, in source order —
block, if, match, break, bare loop, while, for, tuple, function call,
assignment, binary operator, constant, unary operator, variable access. -/
def read_operation : Nat → Parser NLOperation
  | 0 => fuel_exhausted
  | Nat.succ n =>
    alt [
      read_code_block n,
      read_if_statement n,
      read_match n,
      read_break_keyword,
      read_basic_loop n,
      read_while_loop n,
      read_for_loop n,
      read_tuple n,
      read_function_call,
      read_assignment n,
      read_binary_operator n,
      read_constant,
      read_urinary_operator n,
      read_variable_access]

end

/- ===================== Declaration grammar ===================== -/

/-- The two-message failure at the end of read_argument_declaration's
nameless branch: offending input non-empty or empty. -/
def read_argument_declaration_fail (input : Str) : PResult NLArgument :=
  if !input.isEmpty then
    .error (verbose_error input "could not read deceleration of argument correctly")
  else .error (verbose_error input "there is no argument")

/-- Source read_argument_declaration: a typed name:type argument, or the
fixed self / mut-self reference arguments introduced by an ampersand. -/
def read_argument_declaration : Parser NLArgument := fun input0 =>
  match blank input0 with
  | .ok i1 _ =>
    match opt read_variable_name i1 with
    | .ok i2 (some name) =>
      (do
        let _ ← blank
        let _ ← char ':'
        let _ ← blank
        let nl_type ← read_variable_type
        let _ ← blank
        pure (NLArgument.mk name nl_type)) i2
    | .ok i2 none =>
      match opt (char '&') i2 with
      | .ok post_input ref_opt =>
        if ref_opt.isSome then
          match (do
            let _ ← blank
            opt (tag (str ("self")))) post_input with
          | .ok i3 (some _) => .ok i3 (NLArgument.mk (str ("self")) NLType.SelfReference)
          | .ok i3 none =>
            match opt (tag (str ("mut"))) i3 with
            | .ok i4 (some _) =>
              (do
                let _ ← blank
                let _ ← tag (str ("self"))
                pure (NLArgument.mk (str ("self")) NLType.MutableSelfReference)) i4
            | .ok _ none => read_argument_declaration_fail i2
            | .error e => .error e
            | .failure e => .failure e
            | .panicked => .panicked
          | .error e => .error e
          | .failure e => .failure e
          | .panicked => .panicked
        else read_argument_declaration_fail i2
      | .error e => .error e
      | .failure e => .failure e
      | .panicked => .panicked
    | .error e => .error e
    | .failure e => .failure e
    | .panicked => .panicked
  | .error e => .error e
  | .failure e => .failure e
  | .panicked => .panicked

/-- Source read_argument_deceleration_list (sic): the region up to the
first closing parenthesis, split into comma-separated argument
declarations, optional trailing comma. -/
def read_argument_deceleration_list : Parser (List NLArgument) := do
  let arg_input ← paren_enclosed
  lift_result (region_items
    (terminated read_argument_declaration (char ','))
    (terminated read_argument_declaration blank)
    arg_input)

/-- Source read_return_type: optional arrow and type; absence is the
none/unit type. -/
def read_return_type : Parser NLType := do
  let _ ← blank
  let tagged ← opt (tag (str ("->")))
  if tagged.isSome then do
    let _ ← blank
    let nl_type ← read_variable_type
    let _ ← blank
    pure nl_type
  else pure NLType.None

/-- Source read_method: met keyword, name, argument list, optional return
type, then a block or a forward-declaration semicolon. -/
def read_method (fuel : Nat) : Parser NLImplementor := do
  let _ ← blank
  let _ ← tag (str ("met"))
  let _ ← blank
  let name ← read_method_name
  let _ ← blank
  let args ← read_argument_deceleration_list
  let _ ← blank
  let return_type ← read_return_type
  let _ ← blank
  let block_op ← opt (read_code_block fuel)
  let block : Option NLBlock := match block_op with
    | some (NLOperation.Block b) => some b
    | _ => none
  if block.isNone then do
    let _ ← char ';'
    pure (NLImplementor.Method ⟨name, args, return_type, block⟩)
  else pure (NLImplementor.Method ⟨name, args, return_type, block⟩)

/-- Source read_function: like read_method but introduced by fn at root. -/
def read_function (fuel : Nat) : Parser RootDeceleration := do
  let _ ← blank
  let _ ← tag (str ("fn"))
  let _ ← blank
  let name ← read_method_name
  let _ ← blank
  let args ← read_argument_deceleration_list
  let _ ← blank
  let return_type ← read_return_type
  let _ ← blank
  let block_op ← opt (read_code_block fuel)
  let block : Option NLBlock := match block_op with
    | some (NLOperation.Block b) => some b
    | _ => none
  if block.isNone then do
    let _ ← char ';'
    pure (RootDeceleration.Function ⟨name, args, return_type, block⟩)
  else pure (RootDeceleration.Function ⟨name, args, return_type, block⟩)

/-- Source read_variant_enum's inner read_variant: a variant name with an
optional parenthesized field list. -/
def read_variant : Parser EnumVariant := do
  let _ ← blank
  let name ← read_variable_name
  let _ ← blank
  let args ← opt read_argument_deceleration_list
  pure ⟨name, match args with
    | some a => a
    | none => []⟩

/-- Source read_variant_enum: enum keyword, name, braced comma-separated
variants with optional trailing comma. -/
def read_variant_enum : Parser RootDeceleration := do
  let _ ← blank
  let _ ← tag (str ("enum"))
  let _ ← blank
  let name ← read_method_name
  let _ ← blank
  let _ ← char '{'
  let _ ← blank
  let variants ← many0 (terminated read_variant (char ','))
  let _ ← blank
  let last_variant ← opt read_variant
  let variants := match last_variant with
    | some v => variants ++ [v]
    | none => variants
  let _ ← blank
  let _ ← char '}'
  pure (RootDeceleration.Enum ⟨name, variants⟩)

/-- Source read_getter: get keyword, name, then either the default form or
an argument list with optional return type and block/semicolon body. -/
def read_getter (fuel : Nat) : Parser NLImplementor := do
  let _ ← blank
  let _ ← tag (str ("get"))
  let name ← read_method_name
  let _ ← blank
  let is_default ← opt (do
    let _ ← char ':'
    let _ ← blank
    let _ ← tag (str ("default"))
    blank)
  if is_default.isSome then do
    let nl_type ← read_return_type
    let _ ← char ';'
    pure (NLImplementor.Getter ⟨name, [], nl_type, NLEncapsulationBlock.Default⟩)
  else do
    let args ← read_argument_deceleration_list
    let nl_type ← read_return_type
    let block_op ← opt (read_code_block fuel)
    let block : Option NLBlock := match block_op with
      | some (NLOperation.Block b) => some b
      | _ => none
    match block with
    | some b =>
      pure (NLImplementor.Getter ⟨name, args, nl_type, NLEncapsulationBlock.Some b⟩)
    | none => do
      let _ ← char ';'
      pure (NLImplementor.Getter ⟨name, args, nl_type, NLEncapsulationBlock.None⟩)

/-- Source read_setter: like read_getter minus the return type; the default
form includes its semicolon in the optional group. -/
def read_setter (fuel : Nat) : Parser NLImplementor := do
  let _ ← blank
  let _ ← tag (str ("set"))
  let name ← read_method_name
  let _ ← blank
  let is_default ← opt (do
    let _ ← char ':'
    let _ ← blank
    let _ ← tag (str ("default"))
    let _ ← blank
    char ';')
  if is_default.isSome then
    pure (NLImplementor.Setter ⟨name, [], NLEncapsulationBlock.Default⟩)
  else do
    let args ← read_argument_deceleration_list
    let _ ← blank
    let block_op ← opt (read_code_block fuel)
    let block : Option NLBlock := match block_op with
      | some (NLOperation.Block b) => some b
      | _ => none
    match block with
    | some b => pure (NLImplementor.Setter ⟨name, args, NLEncapsulationBlock.Some b⟩)
    | none => do
      let _ ← char ';'
      pure (NLImplementor.Setter ⟨name, args, NLEncapsulationBlock.None⟩)

/-- Source read_trait: trait keyword, name, braced implementor list. -/
def read_trait (fuel : Nat) : Parser RootDeceleration := do
  let _ ← blank
  let _ ← tag (str ("trait"))
  let _ ← blank
  let name ← read_struct_or_trait_name
  let _ ← blank
  let _ ← char '{'
  let _ ← blank
  let implementors ← many0 (alt [read_method fuel, read_getter fuel, read_setter fuel])
  let _ ← blank
  let _ ← char '}'
  pure (RootDeceleration.Trait ⟨name, implementors⟩)

/-- Source read_struct_variable: name colon type. -/
def read_struct_variable : Parser NLStructVariable := do
  let _ ← blank
  let name ← read_variable_name
  let _ ← blank
  let _ ← char ':'
  let _ ← blank
  let nl_type ← read_variable_type
  pure ⟨name, nl_type⟩

/-- Source read_implementation: impl keyword, target name, braced
implementor list. -/
def read_implementation (fuel : Nat) : Parser NLImplementation := do
  let _ ← blank
  let _ ← tag (str ("impl"))
  let name ← read_struct_or_trait_name
  let _ ← char '{'
  let _ ← blank
  let methods ← many0 (alt [read_method fuel, read_getter fuel, read_setter fuel])
  let _ ← blank
  let _ ← char '}'
  pure (NLImplementation.mk name methods)

/-- Source read_struct: struct keyword, name, braced comma-separated
variables with optional trailing variable, then any number of impl blocks. -/
def read_struct (fuel : Nat) : Parser RootDeceleration := do
  let _ ← blank
  let _ ← tag (str ("struct"))
  let _ ← blank
  let name ← read_struct_or_trait_name
  let _ ← blank
  let _ ← char '{'
  let _ ← blank
  let vars ← many0 (terminated read_struct_variable (do
    let _ ← blank
    char ','))
  let _ ← blank
  let last_var ← opt read_struct_variable
  let vars := match last_var with
    | some v => vars ++ [v]
    | none => vars
  let _ ← blank
  let _ ← char '}'
  let implementations ← many0 (read_implementation fuel)
  pure (RootDeceleration.Struct ⟨name, vars, implementations⟩)

/- ===================== Root assembly and diagnostics ===================== -/

/-- The fuel parse_file_root hands to the expression grammar: generous in
the input length; ample because every cycle through the source grammar
consumes at least one character and non-consuming call chains have small
constant depth. -/
def root_fuel (input : Str) : Nat := 8 * input.length + 64

/-- Source parse_file_root: an empty input is an empty file immediately;
otherwise one-or-more root declarations (ordered choice struct, trait,
function, enum), accumulated into the per-kind lists in source order.  Any
remaining input after the last declaration that parses is left unconsumed
in the returned pair. -/
def parse_file_root : Parser NLFile := fun input =>
  let empty_file : NLFile := ⟨"", [], [], [], []⟩
  if !input.isEmpty then
    match many1 (alt [
        read_struct (root_fuel input),
        read_trait (root_fuel input),
        read_function (root_fuel input),
        read_variant_enum]) input with
    | .ok rest root_defs =>
      .ok rest (root_defs.foldl (fun file root_def =>
        match root_def with
        | RootDeceleration.Struct s => { file with structs := file.structs ++ [s] }
        | RootDeceleration.Trait t => { file with traits := file.traits ++ [t] }
        | RootDeceleration.Function f => { file with functions := file.functions ++ [f] }
        | RootDeceleration.Enum e => { file with enums := file.enums ++ [e] }) empty_file)
    | .error e => .error e
    | .failure e => .failure e
    | .panicked => .panicked
  else .ok input empty_file

/-- Rendering of a VerboseError into the ParseError message, standing in
for nom convert_error: a deterministic function of exactly the same data
(the original input and the error stack); the precise line/column excerpt
layout is not reproduced — no claim observes the text, only that a
diagnostic is produced. -/
def convert_error (input : Str) (e : VError) : String :=
  (e.map (fun entry =>
    entry.2 ++ " at byte " ++ toString (input.length - entry.1.length))).foldl
    (fun acc line => acc ++ "; " ++ line) "parse error"

/-- Source parse_string: run the root assembler; on either error severity
render a diagnostic over the whole input (the Incomplete case of the
source cannot arise from these complete-input combinators), on success
ignore any unconsumed remainder and stamp the file name into the root. -/
def parse_string (input : String) (file_name : String) : ParseOutcome :=
  match parse_file_root (str input) with
  | .error e => .Err ⟨convert_error (str input) e⟩
  | .failure e => .Err ⟨convert_error (str input) e⟩
  | .panicked => .Panicked
  | .ok _ file => .Ok { file with name := file_name }

/- ===================== Theorems ===================== -/

set_option maxRecDepth 100000

/-- Running a bound pair of productions: the definitional unfolding of the
Parser monad's bind at a concrete input. -/
theorem bind_eq {α β : Type} (p : Parser α) (f : α → Parser β) (input : Str) :
    (p >>= f) input = match p input with
      | .ok rest v => f v rest
      | .error e => .error e
      | .failure e => .failure e
      | .panicked => .panicked := rfl

/-- Running pure: the definitional unfolding of the Parser monad's pure. -/
theorem pure_eq {α : Type} (v : α) (input : Str) :
    (pure v : Parser α) input = .ok input v := rfl

/-- Every character of a takeWhile prefix satisfies the predicate. -/
theorem all_takeWhile (p : Char → Bool) : (l : Str) → ((l.takeWhile p).all p) = true
  | [] => rfl
  | c :: t => by
    simp only [List.takeWhile]
    cases h : p c with
    | false => rfl
    | true => simp [List.all_cons, h, all_takeWhile p t]

/-- The slice captured by the parenthesis-region idiom never contains a
closing parenthesis: it is everything strictly before the first one. -/
theorem paren_enclosed_no_rparen : ∀ input rest s, paren_enclosed input = PResult.ok rest s →
    s.all (fun c => c != ')') = true := by
  intro input rest s h
  unfold paren_enclosed delimited at h
  rw [bind_eq] at h
  split at h
  all_goals try exact PResult.noConfusion h
  next i1 c heq1 =>
    rw [bind_eq] at h
    simp only [take_while] at h
    rw [bind_eq] at h
    split at h
    all_goals try exact PResult.noConfusion h
    next i3 c3 heq3 =>
      rw [pure_eq] at h
      injection h with h1 h2
      subst h2
      exact all_takeWhile _ _

/-- Whatever the markers, the shared tail of the nominal type fallback can
only build one of the six struct/trait ownership forms. -/
theorem identify_tail_nominal : ∀ r m input rest t, identify_tail r m input = PResult.ok rest t →
    t.is_nominal_struct_or_trait = true := by
  intro r m input rest t h
  unfold identify_tail at h
  repeat' split at h
  all_goals first
    | exact PResult.noConfusion h
    | (injection h with h1 h2; subst h2; rfl)

/-- C1.  The spec says a match expression may carry an integer-range branch
lo..hi and that parse_string always returns an AST or a diagnostic.  The
code disagrees: read_range_branch parses both bounds and the branch body
and then executes unimplemented, a panic, which no enclosing alternative
catches.  This theorem evaluates the embedding at such inputs: the whole
parse of a function whose body is match x with branch 1..2 panics, and
read_operation on the exact source string of the repository's own
one_branch_range test (which asserts a Range(25,42) branch) panics too. -/
theorem C1_range_branch_panics :
    parse_string ("fn f() \x7b match x \x7b 1..2 => 3 \x7d \x7d") ("t") = .Panicked ∧
    read_operation 64 (str ("match variable \x7b 25..42 => 0, \x7d")) = .panicked :=
  ⟨rfl, rfl⟩

/-- C2 counterexample.  The claim says an Ok from parse_string implies the
root assembler consumed the entire input, and that struct A followed by a
stray token qqq is rejected.  In fact parse_file_root returns Ok with the
unconsumed remainder " qqq", and parse_string accepts, silently dropping
the trailing text. -/
theorem C2_trailing_garbage_accepted :
    parse_file_root (str ("struct A \x7b \x7d qqq")) =
      .ok (str (" qqq")) ⟨"", [⟨str ("A"), [], []⟩], [], [], []⟩ ∧
    (parse_string ("struct A \x7b \x7d qqq") ("t")).isOk = true :=
  ⟨rfl, rfl⟩

/-- C2 amended.  parse_string Ok does not imply full consumption: trailing
input after the last parseable root declaration is discarded (struct A
followed by qqq yields exactly one struct named A), while an unmatched
token at the very start of the root — before any declaration parses — is
still a fatal diagnostic. -/
theorem C2_root_leftover_discarded :
    parse_string ("struct A \x7b \x7d qqq") ("f.nl") =
      .Ok ⟨"f.nl", [⟨str ("A"), [], []⟩], [], [], []⟩ ∧
    (parse_string ("qqq") ("f.nl")).isErr = true :=
  ⟨rfl, rfl⟩

/-- C3 counterexample.  The claim says the boolean-suffix literal failure
is fatal — uncaught by any enclosing alternative, aborting the whole
parse.  In fact verbose_error builds a recoverable nom Error: the literal
5bool makes read_numerical_constant fail recoverably, and a whole-program
parse containing that literal inside parentheses succeeds (the failure is
absorbed; the region parses as an empty tuple). -/
theorem C3_boolean_suffix_absorbed :
    (read_numerical_constant (str ("5bool"))).is_recoverable_error = true ∧
    (parse_string ("fn f() \x7b (5bool) \x7d") ("t")).isOk = true :=
  ⟨rfl, rfl⟩

/-- C3 amended.  A numeric literal with a boolean type suffix produces a
recoverable error (nom Err::Error, not Err::Failure): read_operation finds
no alternative that succeeds on 5bool and fails recoverably as a whole,
but enclosing optionals and alternatives may absorb the failure, so the
parse does not necessarily abort. -/
theorem C3_boolean_suffix_recoverable :
    (read_numerical_constant (str ("5bool"))).is_recoverable_error = true ∧
    (read_operation 32 (str ("5bool"))).is_recoverable_error = true ∧
    (parse_string ("fn f2() \x7b (5bool) \x7d") ("t")).isOk = true :=
  ⟨rfl, rfl, rfl⟩

/-- C4.  Numeric literal parsing: 5 is Signed 5 of type I32; 0xFF is
Signed 255 of type I32 (hex wins over the decimal parse of the leading 0);
-5i64 is Signed -5 of type I64; 5.5 is Float32 of value 11/2 (the float
grammar wins before the integer grammar and the absent suffix defaults to
the 32-bit float); 5.5f64 is Float64 of the same value; 0b10 and 0o17
witness the binary and octal radixes of the priority chain. -/
theorem C4_numeric_literals :
    read_constant_raw (str ("5")) = .ok [] (.Signed 5 .I32) ∧
    read_constant_raw (str ("0xFF")) = .ok [] (.Signed 255 .I32) ∧
    read_constant_raw (str ("-5i64")) = .ok [] (.Signed (-5) .I64) ∧
    read_constant_raw (str ("5.5")) = .ok [] (.Float32 (11/2)) ∧
    read_constant_raw (str ("5.5f64")) = .ok [] (.Float64 (11/2)) ∧
    read_constant_raw (str ("0b10")) = .ok [] (.Signed 2 .I32) ∧
    read_constant_raw (str ("0o17")) = .ok [] (.Signed 15 .I32) := by
  have h : float_value false (str ("5")) (str ("5")) 0 = 11/2 := by
    have h5 : decimal_digits_nat (str ("5")) = 5 := rfl
    have hl : (str ("5")).length = 1 := rfl
    simp only [float_value, h5, hl]
    norm_num
  refine ⟨rfl, rfl, rfl, ?_, ?_, rfl, rfl⟩
  · rw [← h]
    rfl
  · rw [← h]
    rfl

/-- C5 counterexample.  The claim says the nominal fallback maps the name
self to the SelfReference variant.  In fact identify_struct_or_trait_type
has no self case at all: on input self it returns the owned-struct form
with name "self", which is not SelfReference. -/
theorem C5_self_not_self_reference :
    identify_struct_or_trait_type (str ("self")) = .ok [] (.OwnedStruct (str ("self"))) ∧
    NLType.OwnedStruct (str ("self")) ≠ NLType.SelfReference :=
  ⟨rfl, fun h => NLType.noConfusion h⟩

/-- C5 amended.  Whenever the type grammar's nominal fallback succeeds —
on any name, the name self included — its result is exactly one of the six
owned/referenced/mutably-referenced struct-or-trait combinations selected
by the ampersand, mut and dyn markers; no self-reference variant is ever
produced by this fallback. -/
theorem C5_nominal_fallback_six_forms : ∀ input rest t,
    identify_struct_or_trait_type input = PResult.ok rest t →
    t.is_nominal_struct_or_trait = true := by
  intro input rest t h
  unfold identify_struct_or_trait_type at h
  repeat' split at h
  all_goals first
    | exact PResult.noConfusion h
    | exact identify_tail_nominal _ _ _ _ _ h

/-- C5 witness: the amended theorem applied at the concrete name A. -/
theorem C5_nominal_fallback_six_forms_witness :
    (NLType.OwnedStruct (str ("A"))).is_nominal_struct_or_trait = true :=
  C5_nominal_fallback_six_forms (str ("A")) [] (NLType.OwnedStruct (str ("A"))) rfl

/-- C6.  The spec says trivia is optional around every token and that
break precedes variable access in read_operation's ordered choice, so
leading whitespace before break must still give the Break operation.  The
code slips: read_break_keyword is the only production in the choice that
does not skip leading trivia, so on a leading space the break alternative
fails and the later variable-access alternative wins — the same input
without the space does produce Break. -/
theorem C6_break_with_trivia_is_variable_access :
    read_operation 32 (str (" break")) = .ok [] (.VariableAccess ⟨str ("break")⟩) ∧
    read_operation 32 (str ("break")) = .ok [] .Break :=
  ⟨rfl, rfl⟩

/-- C7.  Binary expressions are exactly operand-symbol-operand with the
operands drawn from read_sub_operation (which by construction lists only
block, tuple, function call, assignment, constant, unary operator and
variable access): a + b parses to ArithmeticAdd of the two variable
accesses consuming the whole input, while a + b + c parses to the same
two-operand node leaving " + c" unconsumed — no chained parse exists. -/
theorem C7_binary_operator_two_operands :
    read_operation 32 (str ("a + b")) =
      .ok [] (.Operator (.ArithmeticAdd (.VariableAccess ⟨str ("a")⟩) (.VariableAccess ⟨str ("b")⟩))) ∧
    read_operation 32 (str ("a + b + c")) =
      .ok (str (" + c")) (.Operator (.ArithmeticAdd (.VariableAccess ⟨str ("a")⟩) (.VariableAccess ⟨str ("b")⟩))) ∧
    read_binary_operator 32 (str ("a + b")) =
      .ok [] (.Operator (.ArithmeticAdd (.VariableAccess ⟨str ("a")⟩) (.VariableAccess ⟨str ("b")⟩))) :=
  ⟨rfl, rfl, rfl⟩

/-- C8.  parse_string on the empty input returns Ok with an NLFile whose
four declaration lists are all empty and whose name is the given file
name. -/
theorem C8_empty_input_ok :
    parse_string ("") ("test_file.nl") = .Ok ⟨"test_file.nl", [], [], [], []⟩ := rfl

/-- C9.  The tuple and function-call productions capture their entire
element/argument region with the parenthesis idiom, which never hands a
region containing a closing parenthesis to the element parsers (first
conjunct, over all inputs); consequently a nested-parenthesis input is cut
at the first closing parenthesis: the tuple production on ((a, b), c)
consumes only up to the first closing parenthesis, yields an empty tuple
(no nested tuple), and leaves ", c)" unconsumed, while a plain call
f(a, b) splits its region into the two bare names. -/
theorem C9_paren_region_stops_at_first_close :
    (∀ input rest s, paren_enclosed input = PResult.ok rest s →
      s.all (fun c => c != ')') = true) ∧
    read_tuple 32 (str ("((a, b), c)")) = .ok (str (", c)")) (.Tuple []) ∧
    read_function_call (str ("f(a, b)")) =
      .ok [] (.FunctionCall (str ("f")) [str ("a"), str ("b")]) :=
  ⟨paren_enclosed_no_rparen, rfl, rfl⟩

/-- C9 witness: the universal conjunct applied at the concrete input (ab). -/
theorem C9_paren_region_stops_at_first_close_witness :
    (str ("ab")).all (fun c => c != ')') = true :=
  C9_paren_region_stops_at_first_close.1 (str ("(ab)")) [] (str ("ab")) rfl

/-- C10.  parse_string is deterministic: the embedding is a pure total
function of the input buffer and the file name alone, so any two
invocations on equal arguments return structurally identical outcomes —
equal NLFile values on success, the identical diagnostic on failure. -/
theorem C10_parse_string_deterministic :
    ∀ (input1 input2 name1 name2 : String), input1 = input2 → name1 = name2 →
    parse_string input1 name1 = parse_string input2 name2 := by
  intro input1 input2 name1 name2 h1 h2
  rw [h1, h2]

/-- C10 witness: the determinism theorem applied at concrete arguments. -/
theorem C10_parse_string_deterministic_witness :
    parse_string ("") ("a") = parse_string ("") ("a") :=
  C10_parse_string_deterministic ("") ("") ("a") ("a") rfl rfl

end NL
